import Mathlib

/-!
Verification of the credential-management core of the online-raithu-bazaar
backend: password hashing/verification (`src/utils/password.ts`), the
authentication service (`src/services/auth-service.ts`), the auth routes
(`src/routes/auth.ts`) and the user store (`src/services/user-service.ts`).

The WebCrypto PBKDF2 primitive (`crypto.subtle.deriveBits`) and the JWT
signing primitive (`hono/jwt`'s `sign`) are platform/library code, not code
of this repository; they are modelled as abstract function parameters
(`kd`, `tok`) so every theorem quantifies over all deterministic key
derivers / signers.  `btoa` / `atob` are modelled concretely as base64
encode / forgiving-base64 decode, since `comparePassword`'s error surface
depends on them.
-/

namespace RaithuBazaar

/-! ### base64 (models the Workers `btoa` / `atob` primitives) -/

/-- The base64 alphabet, index `n` holding the digit of value `n`. -/
def b64Chars : List Char :=
  "ABCDEFGHIJKLMNOPQRSTUVWXYZabcdefghijklmnopqrstuvwxyz0123456789+/".toList

/-- Encode one 6-bit value as a base64 character. -/
def encC (n : Nat) : Char := b64Chars.getD n 'A'

/-- Decode one base64 character to its 6-bit value; `none` for characters
outside the alphabet (including the padding character). -/
def decC (c : Char) : Option Nat := b64Chars.findIdx? (fun x => x == c)

/-- Encode a byte list into base64 characters, three bytes to four
characters, padding the final group with `=` as `btoa` does. -/
def b64EncodeGroups : List Nat → List Char
  | a :: b :: c :: rest =>
    let w := a * 65536 + b * 256 + c
    encC (w / 262144) :: encC (w / 4096 % 64) :: encC (w / 64 % 64) ::
      encC (w % 64) :: b64EncodeGroups rest
  | [a, b] =>
    let w := a * 65536 + b * 256
    [encC (w / 262144), encC (w / 4096 % 64), encC (w / 64 % 64), '=']
  | [a] =>
    let w := a * 65536
    [encC (w / 262144), encC (w / 4096 % 64), '=', '=']
  | [] => []

/-- Decode base64 characters into bytes, four characters to three bytes.
Mirrors forgiving-base64 (`atob`): `=` is accepted only as final padding,
an unpadded final group of two or three characters is accepted, any
character outside the alphabet and a final group of one character are
rejected. -/
def b64DecodeGroups : List Char → Option (List Nat)
  | [] => some []
  | [_] => none
  | [c1, c2] =>
    match decC c1, decC c2 with
    | some n1, some n2 => some [n1 * 4 + n2 / 16]
    | _, _ => none
  | [c1, c2, c3] =>
    match decC c1, decC c2, decC c3 with
    | some n1, some n2, some n3 =>
      some [(n1 * 4 + n2 / 16), (n2 % 16 * 16 + n3 / 4)]
    | _, _, _ => none
  | c1 :: c2 :: c3 :: c4 :: rest =>
    match decC c1, decC c2 with
    | some n1, some n2 =>
      if c3 = '=' then
        if c4 = '=' ∧ rest = [] then some [n1 * 4 + n2 / 16] else none
      else
        match decC c3 with
        | some n3 =>
          if c4 = '=' then
            if rest = [] then some [(n1 * 4 + n2 / 16), (n2 % 16 * 16 + n3 / 4)]
            else none
          else
            match decC c4 with
            | some n4 =>
              (b64DecodeGroups rest).map
                (fun bs => (n1 * 4 + n2 / 16) :: (n2 % 16 * 16 + n3 / 4) ::
                  (n3 % 4 * 64 + n4) :: bs)
            | none => none
        | none => none
    | _, _ => none

/-- ASCII whitespace, which forgiving-base64 strips before decoding. -/
def isWsChar (c : Char) : Bool :=
  c = ' ' ∨ c = '\t' ∨ c = '\n' ∨ c = Char.ofNat 12 ∨ c = '\r'

/-- Strip ASCII whitespace (the first step of forgiving-base64). -/
def stripWs (l : List Char) : List Char := l.filter (fun c => !isWsChar c)

/-- `btoa(String.fromCharCode(...bytes))`: base64-encode a byte list. -/
def btoaModel (bs : List Nat) : String := ⟨b64EncodeGroups bs⟩

/-- `Uint8Array.from(atob(s), c => c.charCodeAt(0))`: forgiving-base64
decode of a string into bytes, `none` when `atob` would throw. -/
def atobModel (s : String) : Option (List Nat) :=
  b64DecodeGroups (stripWs s.toList)

/-! ### base64 facts -/

theorem decC_encC_fin : ∀ m : Fin 64, decC (encC m.val) = some m.val := by decide

theorem decC_encC {n : Nat} (h : n < 64) : decC (encC n) = some n :=
  decC_encC_fin ⟨n, h⟩

theorem decC_pad : decC '=' = none := by decide

theorem encC_ne_pad {n : Nat} (h : n < 64) : encC n ≠ '=' := by
  intro heq
  have h1 := decC_encC h
  rw [heq, decC_pad] at h1
  exact Option.noConfusion h1

theorem encC_not_ws_fin : ∀ m : Fin 64, isWsChar (encC m.val) = false := by decide

theorem b64Chars_length : b64Chars.length = 64 := by decide

theorem encC_not_ws (n : Nat) : isWsChar (encC n) = false := by
  by_cases h : n < 64
  · exact encC_not_ws_fin ⟨n, h⟩
  · have : encC n = 'A' := by
      unfold encC
      exact List.getD_eq_default _ _ (by rw [b64Chars_length]; omega)
    rw [this]; decide

theorem pad_not_ws : isWsChar '=' = false := by decide

theorem stripWs_encode (bs : List Nat) :
    stripWs (b64EncodeGroups bs) = b64EncodeGroups bs := by
  unfold stripWs
  rw [List.filter_eq_self]
  intro c hc
  induction bs using b64EncodeGroups.induct with
  | case1 a b c' rest ih =>
    rw [b64EncodeGroups] at hc
    simp only [List.mem_cons] at hc
    rcases hc with h | h | h | h | h
    · simp [h, encC_not_ws]
    · simp [h, encC_not_ws]
    · simp [h, encC_not_ws]
    · simp [h, encC_not_ws]
    · exact ih h
  | case2 a b =>
    rw [b64EncodeGroups] at hc
    simp only [List.mem_cons, List.not_mem_nil, or_false] at hc
    rcases hc with h | h | h | h
    · simp [h, encC_not_ws]
    · simp [h, encC_not_ws]
    · simp [h, encC_not_ws]
    · simp [h, pad_not_ws]
  | case3 a =>
    rw [b64EncodeGroups] at hc
    simp only [List.mem_cons, List.not_mem_nil, or_false] at hc
    rcases hc with h | h | h | h
    · simp [h, encC_not_ws]
    · simp [h, encC_not_ws]
    · simp [h, pad_not_ws]
    · simp [h, pad_not_ws]
  | case4 =>
    rw [b64EncodeGroups] at hc
    exact absurd hc (List.not_mem_nil c)

theorem b64_roundtrip : ∀ bs : List Nat, (∀ b ∈ bs, b < 256) →
    b64DecodeGroups (b64EncodeGroups bs) = some bs := by
  intro bs hbs
  induction bs using b64EncodeGroups.induct with
  | case1 a b c rest ih =>
    have ha : a < 256 := hbs a (by simp)
    have hb : b < 256 := hbs b (by simp)
    have hc : c < 256 := hbs c (by simp)
    have hrest : ∀ x ∈ rest, x < 256 := fun x hx => hbs x (by simp [hx])
    have h1 : (a * 65536 + b * 256 + c) / 262144 < 64 := by omega
    have h2 : (a * 65536 + b * 256 + c) / 4096 % 64 < 64 := by omega
    have h3 : (a * 65536 + b * 256 + c) / 64 % 64 < 64 := by omega
    have h4 : (a * 65536 + b * 256 + c) % 64 < 64 := by omega
    simp only [b64EncodeGroups]
    simp only [b64DecodeGroups, decC_encC h1, decC_encC h2, decC_encC h3,
      decC_encC h4]
    rw [if_neg (encC_ne_pad h3), if_neg (encC_ne_pad h4), ih hrest]
    have e1 : (a * 65536 + b * 256 + c) / 262144 * 4 +
        (a * 65536 + b * 256 + c) / 4096 % 64 / 16 = a := by omega
    have e2 : (a * 65536 + b * 256 + c) / 4096 % 64 % 16 * 16 +
        (a * 65536 + b * 256 + c) / 64 % 64 / 4 = b := by omega
    have e3 : (a * 65536 + b * 256 + c) / 64 % 64 % 4 * 64 +
        (a * 65536 + b * 256 + c) % 64 = c := by omega
    simp only [Option.map_some', e1, e2, e3]
  | case2 a b =>
    have ha : a < 256 := hbs a (by simp)
    have hb : b < 256 := hbs b (by simp)
    have h1 : (a * 65536 + b * 256) / 262144 < 64 := by omega
    have h2 : (a * 65536 + b * 256) / 4096 % 64 < 64 := by omega
    have h3 : (a * 65536 + b * 256) / 64 % 64 < 64 := by omega
    simp only [b64EncodeGroups]
    simp only [b64DecodeGroups, decC_encC h1, decC_encC h2, decC_encC h3]
    rw [if_neg (encC_ne_pad h3)]
    have e1 : (a * 65536 + b * 256) / 262144 * 4 +
        (a * 65536 + b * 256) / 4096 % 64 / 16 = a := by omega
    have e2 : (a * 65536 + b * 256) / 4096 % 64 % 16 * 16 +
        (a * 65536 + b * 256) / 64 % 64 / 4 = b := by omega
    simp only [e1, e2]
    simp
  | case3 a =>
    have ha : a < 256 := hbs a (by simp)
    have h1 : a * 65536 / 262144 < 64 := by omega
    have h2 : a * 65536 / 4096 % 64 < 64 := by omega
    simp only [b64EncodeGroups]
    simp only [b64DecodeGroups, decC_encC h1, decC_encC h2]
    have e1 : a * 65536 / 262144 * 4 + a * 65536 / 4096 % 64 / 16 = a := by
      omega
    simp only [e1]
    simp
  | case4 =>
    simp [b64EncodeGroups, b64DecodeGroups]

theorem atob_btoa (bs : List Nat) (hbs : ∀ b ∈ bs, b < 256) :
    atobModel (btoaModel bs) = some bs := by
  unfold atobModel btoaModel
  show b64DecodeGroups (stripWs (b64EncodeGroups bs)) = some bs
  rw [stripWs_encode, b64_roundtrip bs hbs]

/-! ### Credential Hasher (`src/utils/password.ts`) -/

/-- `SALT_LENGTH` constant of `src/utils/password.ts`. -/
def SALT_LENGTH : Nat := 16

/-- `ITERATIONS` constant of `src/utils/password.ts` (PBKDF2 rounds). -/
def ITERATIONS : Nat := 100000

/-- `HASH_LENGTH` constant of `src/utils/password.ts` (derived-key bytes). -/
def HASH_LENGTH : Nat := 32

/-- Abstraction of `crypto.subtle.deriveBits` with the fixed PBKDF2-SHA-256
parameters: a deterministic function of the password and the salt. -/
abbrev KeyDeriver := String → List Nat → List Nat

/-- `hashPassword` from `src/utils/password.ts`: derive a key from the
password and a salt (drawn by `crypto.getRandomValues`, here an explicit
argument), concatenate salt ‖ derived key, and base64-encode. -/
def hashPassword (kd : KeyDeriver) (salt : List Nat) (password : String) :
    String :=
  btoaModel (salt ++ kd password salt)

/-- The result of `hash.every((value, index) => value === newHashArray[index])`
in `comparePassword` (`TypedArray.prototype.every` on two equal-length
arrays). -/
def everyEq : List Nat → List Nat → Bool
  | [], _ => true
  | a :: as, b :: bs => if a = b then everyEq as bs else false
  | _ :: _, [] => false

/-- The number of element comparisons that same `every` call performs:
`TypedArray.prototype.every` stops at the first index whose callback
returns `false`. -/
def everyEqSteps : List Nat → List Nat → Nat
  | [], _ => 0
  | a :: as, b :: bs => if a = b then everyEqSteps as bs + 1 else 1
  | _ :: _, [] => 1

/-- Index of the first position where two lists differ (length of the
common prefix). -/
def firstDiff : List Nat → List Nat → Nat
  | a :: as, b :: bs => if a = b then firstDiff as bs + 1 else 0
  | _, _ => 0

/-- `comparePassword` from `src/utils/password.ts`: base64-decode the
stored hash (the `try`/`catch` maps an `atob` failure to `false`), split
off the salt, re-derive a key, compare lengths, then compare element-wise
with `every`. -/
def comparePassword (kd : KeyDeriver) (password storedHash : String) : Bool :=
  match atobModel storedHash with
  | none => false
  | some combined =>
    let salt := combined.take SALT_LENGTH
    let hash := combined.drop SALT_LENGTH
    let newHash := kd password salt
    if hash.length ≠ newHash.length then false
    else everyEq hash newHash

/-- The number of byte comparisons the `every` call inside
`comparePassword` performs on a given input (`0` when the `every` call is
never reached). -/
def comparePasswordCmpSteps (kd : KeyDeriver) (password storedHash : String) :
    Nat :=
  match atobModel storedHash with
  | none => 0
  | some combined =>
    let salt := combined.take SALT_LENGTH
    let hash := combined.drop SALT_LENGTH
    let newHash := kd password salt
    if hash.length ≠ newHash.length then 0
    else everyEqSteps hash newHash

/-- Concrete key deriver used to instantiate hypotheses in witnesses. -/
def kd0 : KeyDeriver := fun _ _ => List.replicate 32 0

/-- Concrete 16-byte salt used in witnesses. -/
def salt0 : List Nat := List.replicate 16 0

theorem everyEq_refl (l : List Nat) : everyEq l l = true := by
  induction l with
  | nil => rfl
  | cons a as ih => simp [everyEq, ih]

theorem comparePassword_some (kd : KeyDeriver) (p s : String) (bs : List Nat)
    (h : atobModel s = some bs) :
    comparePassword kd p s =
      if (bs.drop SALT_LENGTH).length ≠ (kd p (bs.take SALT_LENGTH)).length
      then false
      else everyEq (bs.drop SALT_LENGTH) (kd p (bs.take SALT_LENGTH)) := by
  unfold comparePassword
  rw [h]

/-- Claim C2: for every password `p` and every salt the hasher may draw
(16 bytes, as `crypto.getRandomValues(new Uint8Array(16))` produces), and
for every deterministic 32-byte key deriver (PBKDF2-SHA-256 included),
`comparePassword p (hashPassword p)` returns `true`. -/
theorem hash_verify_roundtrip (kd : KeyDeriver) (salt : List Nat)
    (password : String)
    (hsalt_len : salt.length = SALT_LENGTH)
    (hsalt : ∀ b ∈ salt, b < 256)
    (hkd : ∀ p s, ∀ b ∈ kd p s, b < 256) :
    comparePassword kd password (hashPassword kd salt password) = true := by
  have hbytes : ∀ b ∈ salt ++ kd password salt, b < 256 := by
    intro b hb
    rcases List.mem_append.mp hb with h | h
    · exact hsalt b h
    · exact hkd password salt b h
  rw [hashPassword,
    comparePassword_some kd password _ _ (atob_btoa _ hbytes)]
  have htake : (salt ++ kd password salt).take SALT_LENGTH = salt := by
    rw [← hsalt_len]
    exact List.take_left _ _
  have hdrop : (salt ++ kd password salt).drop SALT_LENGTH =
      kd password salt := by
    rw [← hsalt_len]
    exact List.drop_left _ _
  rw [htake, hdrop, if_neg (fun hne => hne rfl)]
  exact everyEq_refl _

/-- Witness for C2 at a concrete deriver, salt and password. -/
theorem hash_verify_roundtrip_wit :
    comparePassword kd0 "secret123" (hashPassword kd0 salt0 "secret123") =
      true :=
  hash_verify_roundtrip kd0 salt0 "secret123" (by decide) (by decide)
    (fun _ _ b hb => by
      have := List.eq_of_mem_replicate hb
      omega)

/-- Claim C6: `comparePassword` is a total boolean function; when the
stored hash does not base64-decode (`atob` throws) it returns `false`, and
when the decoded derived-key part has the wrong length it returns `false`,
so a corrupt record behaves exactly like a wrong password. -/
theorem comparePassword_malformed_false (kd : KeyDeriver) (p s : String) :
    (atobModel s = none → comparePassword kd p s = false) ∧
    (∀ bs, atobModel s = some bs →
      (bs.drop SALT_LENGTH).length ≠ (kd p (bs.take SALT_LENGTH)).length →
      comparePassword kd p s = false) := by
  constructor
  · intro h
    unfold comparePassword
    rw [h]
  · intro bs h hlen
    rw [comparePassword_some kd p s bs h, if_pos hlen]

/-- Witness for C6: a stored hash containing characters outside the base64
alphabet yields `false`, and so does a decodable but truncated one. -/
theorem comparePassword_malformed_false_wit :
    comparePassword kd0 "pw" "%%%" = false ∧
    comparePassword kd0 "pw" "QQ==" = false :=
  ⟨(comparePassword_malformed_false kd0 "pw" "%%%").1 (by decide),
   (comparePassword_malformed_false kd0 "pw" "QQ==").2 [65] (by decide)
     (by decide)⟩

/-- Counterexample to Claim C1: two malformed-password runs over stored
hashes of identical length perform a different number of byte comparisons
— 1 when the first derived byte differs, 32 when only the last does — so
the `every`-based comparison exits early and its execution depends on
where the two byte sequences first differ. -/
theorem comparePassword_steps_depend_on_diff :
    comparePasswordCmpSteps kd0 "pw"
        (btoaModel (salt0 ++ (1 :: List.replicate 31 0))) = 1 ∧
    comparePasswordCmpSteps kd0 "pw"
        (btoaModel (salt0 ++ (List.replicate 31 0 ++ [1]))) = 32 ∧
    comparePassword kd0 "pw"
        (btoaModel (salt0 ++ (1 :: List.replicate 31 0))) = false ∧
    comparePassword kd0 "pw"
        (btoaModel (salt0 ++ (List.replicate 31 0 ++ [1]))) = false := by
  decide

/-- Claim C1 as amended: the comparison in `comparePassword` is
element-wise but short-circuits: its result correctly decides equality,
and the number of comparisons is the full length only when the sequences
are equal, and one plus the position of the first difference otherwise. -/
theorem everyEq_early_exit (a b : List Nat) (h : a.length = b.length) :
    (everyEq a b = true ↔ a = b) ∧
    everyEqSteps a b = if a = b then a.length else firstDiff a b + 1 := by
  induction a generalizing b with
  | nil =>
    cases b with
    | nil => simp [everyEq, everyEqSteps]
    | cons y ys => simp at h
  | cons x xs ih =>
    cases b with
    | nil => simp at h
    | cons y ys =>
      have h' : xs.length = ys.length := by simpa using h
      obtain ⟨ih1, ih2⟩ := ih ys h'
      by_cases hxy : x = y
      · subst hxy
        refine ⟨by simp [everyEq, ih1], ?_⟩
        by_cases hxs : xs = ys
        · subst hxs
          simp [everyEqSteps, firstDiff, ih2]
        · have hne : x :: xs ≠ x :: ys := by simp [hxs]
          rw [if_neg hne]
          simp [everyEqSteps, firstDiff, ih2, hxs]
      · refine ⟨?_, ?_⟩
        · simp [everyEq, hxy]
        · simp [everyEqSteps, firstDiff, hxy]

/-- Witness for the amended C1 at a concrete unequal pair. -/
theorem everyEq_early_exit_wit :
    (everyEq [1, 2] [1, 3] = true ↔ ([1, 2] : List Nat) = [1, 3]) ∧
    everyEqSteps [1, 2] [1, 3] =
      if ([1, 2] : List Nat) = [1, 3] then 2 else firstDiff [1, 2] [1, 3] + 1 :=
  everyEq_early_exit [1, 2] [1, 3] (by decide)

/-! ### Data model (`prisma` User row, `src/services/*.ts` interfaces) -/

/-- One `User` row as created by the migration: `name` is nullable, every
other field is `NOT NULL`. -/
structure UserRec where
  id : Nat
  email : String
  name : Option String
  password_hash : String
  role : String
  profile_completed : Bool
deriving DecidableEq

/-- `SignupInput` from `src/services/auth-service.ts` (the `role` union
type is a string at runtime). -/
structure SignupInput where
  email : String
  password : String
  name : String
  role : String

/-- `JWTPayload` from `src/utils/jwt.ts`, with `iat`/`exp` filled in as
`generateAuthResponse` does. -/
structure JWTPayload where
  userId : Nat
  email : String
  name : String
  role : String
  iat : Nat
  exp : Nat
deriving DecidableEq

/-- The `user` part of `AuthResponse`. -/
structure UserView where
  id : Nat
  email : String
  name : String
  role : String
  profileCompleted : Bool
deriving DecidableEq

/-- `AuthResponse` from `src/services/auth-service.ts`. -/
structure AuthResponse where
  accessToken : String
  expiresIn : Nat
  user : UserView
deriving DecidableEq

instance {ε α : Type} [DecidableEq ε] [DecidableEq α] :
    DecidableEq (Except ε α) := fun a b =>
  match a, b with
  | .ok x, .ok y =>
    if h : x = y then isTrue (by rw [h]) else isFalse (by simp [h])
  | .error x, .error y =>
    if h : x = y then isTrue (by rw [h]) else isFalse (by simp [h])
  | .ok _, .error _ => isFalse (by simp)
  | .error _, .ok _ => isFalse (by simp)

/-- Abstraction of `hono/jwt`'s `sign` (used by `generateToken`): a
deterministic function of the payload and the secret. -/
abbrev TokenSigner := JWTPayload → String → String

/-- Concrete token signer used in witnesses. -/
def tok0 : TokenSigner := fun _ _ => ""

/-! ### Route validation (`src/routes/auth.ts`) -/

/-- The literal list in `signupSchema`'s `z.enum(['farmer', 'consumer'])`. -/
def signupRoles : List String := ["farmer", "consumer"]

/-- Whether a role value passes `signupSchema`'s `z.enum` check. -/
def roleAccepted (r : String) : Bool := signupRoles.contains r

/-- The `/sign-up` route's error mapping: the `catch` compares the thrown
message to the literal `'User already exists'` and returns 409 on a match;
everything else is rethrown to the outer handler, which (for non-Zod,
non-HTTPException errors) returns 500. -/
def signupErrorStatus (msg : String) : Nat :=
  if msg = "User already exists" then 409 else 500

/-- HTTP status of a `/sign-up` service outcome. -/
def signupRouteStatus (r : Except String AuthResponse) : Nat :=
  match r with
  | .ok _ => 200
  | .error msg => signupErrorStatus msg

/-! ### Credential Store and Authentication Service
(`src/services/user-service.ts`, `src/services/auth-service.ts`) -/

/-- `PrismaUserService.getUserByEmail`: `findUnique({ where: { email } })`
over the case-sensitive unique index `User_email_key` (the migration
declares no `COLLATE NOCASE`), i.e. exact string match. -/
def findByEmail (store : List UserRec) (email : String) : Option UserRec :=
  store.find? (fun u => u.email == email)

/-- The id `AUTOINCREMENT` assigns to the next inserted row. -/
def nextId (store : List UserRec) : Nat :=
  (store.map (fun u => u.id)).foldr max 0 + 1

/-- The `payload` built by `AuthService.generateAuthResponse`; `now` is
`Math.floor(Date.now() / 1000)` and `name` is `user.name || ''`. -/
def mkPayload (now : Nat) (u : UserRec) : JWTPayload :=
  { userId := u.id, email := u.email, name := u.name.getD "",
    role := u.role, iat := now, exp := now + 24 * 60 * 60 }

/-- `AuthService.generateAuthResponse`: sign the payload and assemble the
response (`expiresIn = 24 * 60 * 60`, `name` coerced by `|| ''`). -/
def generateAuthResponse (tok : TokenSigner) (secret : String) (now : Nat)
    (u : UserRec) : AuthResponse :=
  { accessToken := tok (mkPayload now u) secret,
    expiresIn := 24 * 60 * 60,
    user := { id := u.id, email := u.email, name := u.name.getD "",
              role := u.role, profileCompleted := u.profile_completed } }

/-- `AuthService.signup`: check existence by email, throw
`'User already exists'` if found; else hash the password and insert.
`insertFailure = some msg` models the store's insert rejecting with an
error (e.g. the unique-constraint violation of the concurrent-signup
window): `signup` itself has no `try`/`catch`, so the store's message
propagates unchanged and no row is written.  The pair's second component
is the store after the call. -/
def signup (kd : KeyDeriver) (tok : TokenSigner) (secret : String)
    (salt : List Nat) (now : Nat) (insertFailure : Option String)
    (store : List UserRec) (input : SignupInput) :
    Except String AuthResponse × List UserRec :=
  match findByEmail store input.email with
  | some _ => (.error "User already exists", store)
  | none =>
    let passwordHash := hashPassword kd salt input.password
    match insertFailure with
    | some msg => (.error msg, store)
    | none =>
      let user : UserRec :=
        { id := nextId store, email := input.email, name := some input.name,
          password_hash := passwordHash, role := input.role,
          profile_completed := false }
      (.ok (generateAuthResponse tok secret now user), store ++ [user])

/-- `AuthService.login`: look up by email, throw
`'Invalid email or password'` if absent; verify the password, throw the
same message if it fails; else issue the auth response. -/
def login (kd : KeyDeriver) (tok : TokenSigner) (secret : String)
    (now : Nat) (store : List UserRec) (email password : String) :
    Except String AuthResponse :=
  match findByEmail store email with
  | none => .error "Invalid email or password"
  | some u =>
    if comparePassword kd password u.password_hash then
      .ok (generateAuthResponse tok secret now u)
    else .error "Invalid email or password"

/-- Concrete stored user for witnesses: the empty `password_hash` decodes
to zero bytes, so every password fails verification against it. -/
def u0 : UserRec :=
  { id := 1, email := "a@x.com", name := some "Alice", password_hash := "",
    role := "farmer", profile_completed := false }

/-- Concrete stored user with a `NULL` name and a real hash for `"pw123"`. -/
def uNull : UserRec :=
  { id := 3, email := "n@x.com", name := none,
    password_hash := hashPassword kd0 salt0 "pw123", role := "consumer",
    profile_completed := true }

/-! ### Claims about the Authentication Service and routes -/

/-- Counterexample to Claim C3: the signup boundary
(`signupSchema`'s `z.enum(['farmer', 'consumer'])`) rejects the role
values 'producer' and 'buyer' and accepts 'farmer' and 'consumer'. -/
theorem role_producer_buyer_rejected :
    roleAccepted "producer" = false ∧ roleAccepted "buyer" = false ∧
    roleAccepted "farmer" = true ∧ roleAccepted "consumer" = true := by
  decide

/-- Claim C3 as amended: the role of a credential is drawn from the fixed
closed two-value set {farmer, consumer} (the spec's producer/buyer roles
under their source names): signup accepts exactly these two role values
and rejects every other value at the boundary. -/
theorem role_closed_set (r : String) :
    roleAccepted r = true ↔ r = "farmer" ∨ r = "consumer" := by
  simp [roleAccepted, signupRoles]

/-- Witness for the amended C3. -/
theorem role_closed_set_wit : roleAccepted "farmer" = true :=
  (role_closed_set "farmer").mpr (Or.inl rfl)

/-- Counterexample to Claim C4: when the existence check passes and the
store's insert then fails with its unique-constraint message (the
concurrent-signup window), the request surfaces as the unknown-error
outcome 500, not as the 409 conflict outcome reserved for the exact
message 'User already exists'. -/
theorem unique_violation_not_conflict :
    signupRouteStatus (signup kd0 tok0 "s" salt0 0
      (some "UNIQUE constraint failed: User.email") []
      { email := "a@x.com", password := "secret123", name := "Alice",
        role := "farmer" }).1 = 500 ∧
    signupErrorStatus "User already exists" = 409 := by
  decide

/-- Claim C4 as amended: `AuthService.signup` catches nothing, so a store
insert failure propagates with the store's own message, and the `/sign-up`
route maps any message other than the literal 'User already exists' — the
unique-constraint message included — to the unknown-error outcome 500
rather than the DuplicateUser conflict outcome. -/
theorem insert_unique_violation_surfaces_unknown (kd : KeyDeriver)
    (tok : TokenSigner) (secret : String) (salt : List Nat) (now : Nat)
    (store : List UserRec) (input : SignupInput) (msg : String)
    (habsent : findByEmail store input.email = none)
    (hmsg : msg ≠ "User already exists") :
    (signup kd tok secret salt now (some msg) store input).1 =
      .error msg ∧
    signupRouteStatus
      (signup kd tok secret salt now (some msg) store input).1 = 500 := by
  have h1 : signup kd tok secret salt now (some msg) store input =
      (.error msg, store) := by
    unfold signup
    rw [habsent]
  rw [h1]
  refine ⟨rfl, ?_⟩
  unfold signupRouteStatus signupErrorStatus
  exact if_neg hmsg

/-- Witness for the amended C4. -/
theorem insert_unique_violation_surfaces_unknown_wit :
    (signup kd0 tok0 "s" salt0 0
      (some "UNIQUE constraint failed: User.email") []
      { email := "b@x.com", password := "pw1234", name := "B",
        role := "consumer" }).1 =
      Except.error "UNIQUE constraint failed: User.email" ∧
    signupRouteStatus (signup kd0 tok0 "s" salt0 0
      (some "UNIQUE constraint failed: User.email") []
      { email := "b@x.com", password := "pw1234", name := "B",
        role := "consumer" }).1 = 500 :=
  insert_unique_violation_surfaces_unknown kd0 tok0 "s" salt0 0 []
    { email := "b@x.com", password := "pw1234", name := "B",
      role := "consumer" } "UNIQUE constraint failed: User.email"
    (by decide) (by decide)

/-- Claim C5: for every store state and password, login with an absent
email and login with a present email whose password fails verification
produce the identical `'Invalid email or password'` failure outcome — the
two failure runs are equal, hence indistinguishable from the error
alone. -/
theorem login_failures_indistinguishable (kd : KeyDeriver)
    (tok : TokenSigner) (secret : String) (now : Nat)
    (store1 store2 : List UserRec) (e1 p1 e2 p2 : String) (u : UserRec)
    (habsent : findByEmail store1 e1 = none)
    (hfound : findByEmail store2 e2 = some u)
    (hbad : comparePassword kd p2 u.password_hash = false) :
    login kd tok secret now store1 e1 p1 =
      .error "Invalid email or password" ∧
    login kd tok secret now store2 e2 p2 =
      .error "Invalid email or password" ∧
    login kd tok secret now store1 e1 p1 =
      login kd tok secret now store2 e2 p2 := by
  have h1 : login kd tok secret now store1 e1 p1 =
      .error "Invalid email or password" := by
    unfold login
    rw [habsent]
  have h2 : login kd tok secret now store2 e2 p2 =
      .error "Invalid email or password" := by
    unfold login
    rw [hfound]
    simp [hbad]
  exact ⟨h1, h2, h1.trans h2.symm⟩

/-- Witness for C5: absent email vs. wrong password, concretely. -/
theorem login_failures_indistinguishable_wit :
    login kd0 tok0 "s" 0 [] "x@y.z" "pw" =
      Except.error "Invalid email or password" ∧
    login kd0 tok0 "s" 0 [u0] "a@x.com" "wrongpass" =
      Except.error "Invalid email or password" ∧
    login kd0 tok0 "s" 0 [] "x@y.z" "pw" =
      login kd0 tok0 "s" 0 [u0] "a@x.com" "wrongpass" :=
  login_failures_indistinguishable kd0 tok0 "s" 0 [] [u0] "x@y.z" "pw"
    "a@x.com" "wrongpass" u0 (by decide) (by decide) (by decide)

/-- Claim C7: when the store already holds a record with the given email,
`signup` fails with the DuplicateUser outcome (`'User already exists'`)
and returns the store unchanged — no insert, no partial write. -/
theorem signup_duplicate_no_mutation (kd : KeyDeriver) (tok : TokenSigner)
    (secret : String) (salt : List Nat) (now : Nat)
    (insertFailure : Option String) (store : List UserRec)
    (input : SignupInput) (u : UserRec)
    (hfound : findByEmail store input.email = some u) :
    signup kd tok secret salt now insertFailure store input =
      (.error "User already exists", store) := by
  unfold signup
  rw [hfound]

/-- Witness for C7 at a concrete one-user store. -/
theorem signup_duplicate_no_mutation_wit :
    signup kd0 tok0 "s" salt0 0 none [u0]
      { email := "a@x.com", password := "secret123", name := "Alice",
        role := "farmer" } =
      (Except.error "User already exists", [u0]) :=
  signup_duplicate_no_mutation kd0 tok0 "s" salt0 0 none [u0]
    { email := "a@x.com", password := "secret123", name := "Alice",
      role := "farmer" } u0 (by decide)

/-- Counterexample to Claim C8: with `a@x.com` already registered, a
second signup for `A@x.com` — the same email up to letter case — is NOT
rejected: it succeeds and inserts a second record (store grows to two
records), because the lookup and the unique index compare emails
case-sensitively. -/
theorem signup_case_differing_email_inserts :
    (signup kd0 tok0 "s" salt0 0 none [u0]
      { email := "A@x.com", password := "secret123", name := "Al",
        role := "farmer" }).2.length = 2 ∧
    (signup kd0 tok0 "s" salt0 0 none [u0]
      { email := "A@x.com", password := "secret123", name := "Al",
        role := "farmer" }).1 ≠ Except.error "User already exists" := by
  decide

/-- Claim C8 as amended: email is an exact-match (case-sensitive) identity
key: signup rejects a second record only for an exactly equal email, and
whenever no stored record's email is exactly equal to the input email —
in particular when they differ only in case — the insert goes through. -/
theorem signup_exact_match_only (kd : KeyDeriver) (tok : TokenSigner)
    (secret : String) (salt : List Nat) (now : Nat)
    (store : List UserRec) (input : SignupInput)
    (habsent : ∀ u ∈ store, u.email ≠ input.email) :
    (signup kd tok secret salt now none store input).2 =
      store ++ [{ id := nextId store, email := input.email,
                  name := some input.name,
                  password_hash := hashPassword kd salt input.password,
                  role := input.role, profile_completed := false }] := by
  have hnone : findByEmail store input.email = none := by
    unfold findByEmail
    rw [List.find?_eq_none]
    intro u hu
    simp [habsent u hu]
  unfold signup
  rw [hnone]

/-- Witness for the amended C8: `A@x.com` inserted next to `a@x.com`. -/
theorem signup_exact_match_only_wit :
    (signup kd0 tok0 "s" salt0 0 none [u0]
      { email := "A@x.com", password := "secret123", name := "Al",
        role := "farmer" }).2 =
      [u0] ++ [{ id := 2, email := "A@x.com", name := some "Al",
                 password_hash := hashPassword kd0 salt0 "secret123",
                 role := "farmer", profile_completed := false }] :=
  signup_exact_match_only kd0 tok0 "s" salt0 0 [u0]
    { email := "A@x.com", password := "secret123", name := "Al",
      role := "farmer" } (by decide)

/-- Claim C9: every auth response (signup and login both assemble theirs
with `generateAuthResponse`) carries `expiresIn = 86400`, and the signed
claim's `exp` equals its `iat` plus 86400 (24 hours). -/
theorem tokens_ttl_86400 (tok : TokenSigner) (secret : String) (now : Nat)
    (u : UserRec) :
    (generateAuthResponse tok secret now u).expiresIn = 86400 ∧
    (mkPayload now u).exp = (mkPayload now u).iat + 86400 :=
  ⟨rfl, rfl⟩

/-- Claim C10: for a credential record whose `name` is `NULL`, the
response's user view and the token payload both carry the empty string
(via `user.name || ''`), and login on such a record still succeeds when
the password verifies. -/
theorem null_name_coerced_empty (kd : KeyDeriver) (tok : TokenSigner)
    (secret : String) (now : Nat) (u : UserRec) (h : u.name = none) :
    (generateAuthResponse tok secret now u).user.name = "" ∧
    (mkPayload now u).name = "" ∧
    (∀ store email password, findByEmail store email = some u →
      comparePassword kd password u.password_hash = true →
      login kd tok secret now store email password =
        .ok (generateAuthResponse tok secret now u)) := by
  refine ⟨?_, ?_, ?_⟩
  · unfold generateAuthResponse
    rw [h]
    rfl
  · unfold mkPayload
    rw [h]
    rfl
  · intro store email password hfound hverify
    unfold login
    rw [hfound]
    simp [hverify]

/-- Witness for C10 at a concrete null-name record and correct password. -/
theorem null_name_coerced_empty_wit :
    (generateAuthResponse tok0 "s" 0 uNull).user.name = "" ∧
    (mkPayload 0 uNull).name = "" ∧
    login kd0 tok0 "s" 0 [uNull] "n@x.com" "pw123" =
      .ok (generateAuthResponse tok0 "s" 0 uNull) :=
  have h := null_name_coerced_empty kd0 tok0 "s" 0 uNull rfl
  ⟨h.1, h.2.1, h.2.2 [uNull] "n@x.com" "pw123" (by decide) (by decide)⟩

end RaithuBazaar
